import Mathlib

/-!
Verification of `src/data/networks/combine.py` (GraphML → MATSim network
merger).  The script merges a drive graph and a walk graph into a single
MATSim network: it resolves per-edge length (explicit attribute, else
haversine fallback), free-flow speed (attribute chain, else per-mode
default), expands non-oneway edges into two directed links, prefixes node
and link identifiers per source graph, and writes an XML payload plus a
gzipped twin.

The embedding below mirrors the source.  Attribute values are modelled by
`PyVal` (numbers as rationals, strings, booleans); Python truthiness and
the short-circuit `or` chains are modelled explicitly.  Two external
library functions are injected as parameters, since they are pure
collaborators whose values the script never inspects:
* `proj` stands for `transformer.transform` (pyproj, EPSG:4326 → 5179,
  combine.py line 44);
* `hav` stands for `haversine` (combine.py lines 51-58), a transcendental
  real function (sin/cos/atan2 over floats).
Fallible operations (Python `float(...)`, dict `[...]` access, the
explicit `raise ValueError`) are modelled in `Except String`.
-/

/-- A Python attribute value as it occurs in a GraphML attribute mapping:
a number (int or float, modelled as a rational), a string, or a boolean. -/
inductive PyVal where
  | num (q : ℚ)
  | str (s : String)
  | bool (b : Bool)
deriving DecidableEq

/-- Python truthiness: `0`/`0.0` and `""` and `False` are falsy,
everything else is truthy. -/
def PyVal.truthy : PyVal → Bool
  | .num q => q != 0
  | .str s => s != ""
  | .bool b => b

/-- Python `str(v)`.  For numbers the source only ever feeds the result to
a membership test against `{"true", "1", "yes"}` (combine.py line 152);
integer-valued numbers render like Python ints, which is the only numeric
case those tests can distinguish. -/
def pyStr : PyVal → String
  | .num q => if q.den = 1 then toString q.num else toString q
  | .str s => s
  | .bool b => if b then "True" else "False"

/-- ASCII lower-casing of one character, as Python's `str.lower()` acts
on the flag values the source compares (line 152). -/
def lowerChar (c : Char) : Char :=
  if 'A' ≤ c ∧ c ≤ 'Z' then Char.ofNat (c.toNat + 32) else c

/-- Python `s.lower()` (ASCII range; the truthy set `"true"/"1"/"yes"`
it is compared against is pure ASCII). -/
def pyLower (s : String) : String := ⟨s.data.map lowerChar⟩

/-- An attribute mapping (`attrs` / `edata` in the source). -/
abbrev Attrs := List (String × PyVal)

/-- Python `d.get(k)`: `None` when the key is absent. -/
def Attrs.get (a : Attrs) (k : String) : Option PyVal :=
  (a.find? (fun p => p.1 == k)).map (fun p => p.2)

/-- Python `e₁ or e₂` where `e₁` is a `d.get(k)` result: the left value is
kept iff it is present and truthy; `None` and present-but-falsy values
both fall through to the right operand. -/
def pyOrOpt : Option PyVal → Option PyVal → Option PyVal
  | some v, b => if v.truthy then some v else b
  | none, b => b

/-- Natural number denoted by a list of decimal digit characters. -/
def natOfDigits (cs : List Char) : ℕ :=
  cs.foldl (fun n c => 10 * n + (c.toNat - 48)) 0

/-- Python `float(s)` on a string, for plain decimal literals
(`[+-]? digits [. digits]?` and `[+-]? . digits`).  Exponents and
`inf`/`nan` spellings are not modelled; no claim exercises them. -/
def pyFloatOfString (s : String) : Option ℚ :=
  let cs := s.trim.toList
  let signed : ℚ × List Char :=
    match cs with
    | '-' :: r => (-1, r)
    | '+' :: r => (1, r)
    | r => (1, r)
  match (signed.2).splitOn '.' with
  | [ds] =>
      if ds ≠ [] ∧ ds.all Char.isDigit then some (signed.1 * natOfDigits ds)
      else none
  | [ip, fp] =>
      if (ip ≠ [] ∨ fp ≠ []) ∧ ip.all Char.isDigit ∧ fp.all Char.isDigit then
        some (signed.1 * ((natOfDigits ip : ℚ) +
          (natOfDigits fp : ℚ) / 10 ^ fp.length))
      else none
  | _ => none

/-- Python `float(v)`: numbers pass through, booleans become 0/1, strings
are parsed (raising `ValueError` on failure). -/
def pyFloat : PyVal → Except String ℚ
  | .num q => .ok q
  | .bool b => .ok (if b then 1 else 0)
  | .str s =>
      match pyFloatOfString s with
      | some q => .ok q
      | none => .error ("ValueError: could not convert string to float: " ++ s)

-- ----------------------------------------------------------------------
-- constants & defaults (combine.py lines 35-41)
-- ----------------------------------------------------------------------

def CAR_DEFAULT_SPEED : ℚ := 15
def WALK_DEFAULT_SPEED : ℚ := 1.4
def DEFAULT_CAPACITY : ℚ := 1000
def DEFAULT_LANES : ℕ := 1
def MATSim_DOCTYPE : String :=
  "<!DOCTYPE network SYSTEM \"http://www.matsim.org/files/dtd/network_v2.dtd\">\n"

-- ----------------------------------------------------------------------
-- data model
-- ----------------------------------------------------------------------

/-- A source graph as exposed by `networkx.read_graphml`: node identifiers
with attribute mappings, and edges with endpoint identifiers and an
attribute mapping. -/
structure Graph where
  nodes : List (String × Attrs)
  edges : List (String × String × Attrs)
deriving DecidableEq

/-- A `<node>` element of the MATSim network (id, planar x, planar y). -/
structure MNode where
  id : String
  x : ℚ
  y : ℚ
deriving DecidableEq

/-- A `<link>` element of the MATSim network (combine.py `add_link`,
lines 82-104; capacity and permlanes always take the defaults). -/
structure Link where
  id : String
  fromId : String
  toId : String
  length : ℚ
  freespeed : ℚ
  capacity : ℚ
  permlanes : ℕ
  modes : String
deriving DecidableEq

/-- The accumulating network element tree (`root` in the source). -/
structure Network where
  nodes : List MNode
  links : List Link
deriving DecidableEq

/-- Model of `build_network_root` (combine.py lines 71-75). -/
def build_network_root : Network := ⟨[], []⟩

-- ----------------------------------------------------------------------
-- node processing (combine.py lines 122-136)
-- ----------------------------------------------------------------------

/-- Model of `attrs.get("x") or attrs.get("lon") or attrs.get("lng")`
(combine.py line 125). -/
def lonChain (attrs : Attrs) : Option PyVal :=
  pyOrOpt (attrs.get "x") (pyOrOpt (attrs.get "lon") (attrs.get "lng"))

/-- Model of `attrs.get("y") or attrs.get("lat")` (combine.py line 126). -/
def latChain (attrs : Attrs) : Option PyVal :=
  pyOrOpt (attrs.get "y") (attrs.get "lat")

/-- The duplicate-id guard of combine.py lines 135-136: a node element is
appended only when no element with that id exists yet. -/
def addNodeIfNew (net : Network) (pid : String) (xy : ℚ × ℚ) : Network :=
  if net.nodes.all (fun n => n.id != pid) then
    { net with nodes := net.nodes ++ [⟨pid, xy.1, xy.2⟩] }
  else net

/-- The node loop of `graph_to_matsim` (combine.py lines 122-136).
`proj` models `transformer.transform`; `np` is the node-id namespace
string.  The source's post-projection `None` check (lines 133-134) is
dead code — pyproj returns numbers — and has no model counterpart. -/
def processNodes (proj : ℚ → ℚ → ℚ × ℚ) (np : String) :
    List (String × Attrs) → Network → Except String Network
  | [], net => .ok net
  | (nid, attrs) :: rest, net =>
    match lonChain attrs, latChain attrs with
    | some lonV, some latV =>
        (match pyFloat lonV with
         | .error e => .error e
         | .ok lon =>
           match pyFloat latV with
           | .error e => .error e
           | .ok lat =>
             processNodes proj np rest (addNodeIfNew net (np ++ nid) (proj lon lat)))
    | _, _ => .error ("Node " ++ nid ++ " missing coordinate attributes in GraphML")

-- ----------------------------------------------------------------------
-- edge processing (combine.py lines 139-159)
-- ----------------------------------------------------------------------

/-- Model of `nid_map[u]` (combine.py line 141): the map sends every node id `nid`
of the current graph to `np ++ nid`; a missing key raises `KeyError`. -/
def nidLookup (g : Graph) (np u : String) : Except String String :=
  if g.nodes.any (fun p => p.1 == u) then .ok (np ++ u)
  else .error ("KeyError: " ++ u)

/-- Model of `float(g.nodes[u][k])` (combine.py lines 145-146): raw dictionary
access on the node's attribute mapping — no alias chain, no truthiness
filtering — followed by `float`. -/
def nodeAttrFloat (g : Graph) (u k : String) : Except String ℚ :=
  match g.nodes.find? (fun p => p.1 == u) with
  | none => .error ("KeyError: " ++ u)
  | some p =>
    match p.2.get k with
    | none => .error ("KeyError: " ++ k)
    | some v => pyFloat v

/-- Model of `float(edata.get("distance") or edata.get("length") or 0.0)`
(combine.py line 143). -/
def edgeLengthAttr (edata : Attrs) : Except String ℚ :=
  match pyOrOpt (edata.get "distance") (edata.get "length") with
  | some w => if w.truthy then pyFloat w else .ok 0
  | none => .ok 0

/-- Length resolution (combine.py lines 143-147): the explicit attribute
chain, with a haversine fallback on the endpoints' raw `x`/`y` node
attributes when the chain yields zero.  `hav` models `haversine`
(lines 51-58). -/
def resolveLength (hav : ℚ → ℚ → ℚ → ℚ → ℚ) (g : Graph) (u v : String)
    (edata : Attrs) : Except String ℚ :=
  match edgeLengthAttr edata with
  | .error e => .error e
  | .ok length =>
    if length = 0 then
      match nodeAttrFloat g u "x" with
      | .error e => .error e
      | .ok lon1 =>
        match nodeAttrFloat g u "y" with
        | .error e => .error e
        | .ok lat1 =>
          match nodeAttrFloat g v "x" with
          | .error e => .error e
          | .ok lon2 =>
            match nodeAttrFloat g v "y" with
            | .error e => .error e
            | .ok lat2 => .ok (hav lon1 lat1 lon2 lat2)
    else .ok length

/-- Model of `float(edata.get("walking_speed") or edata.get("maxspeed") or
default_speed)` (combine.py line 149), identical for both graphs. -/
def edgeSpeed (edata : Attrs) (ds : ℚ) : Except String ℚ :=
  match pyOrOpt (edata.get "walking_speed") (edata.get "maxspeed") with
  | some w => if w.truthy then pyFloat w else .ok ds
  | none => .ok ds

/-- The oneway flag (combine.py lines 151-152): a missing flag counts as
oneway; a present flag is oneway iff `str(flag).lower()` is one of
`"true"`, `"1"`, `"yes"`. -/
def onewayBool (edata : Attrs) : Bool :=
  match edata.get "oneway" with
  | none => true
  | some w => ["true", "1", "yes"].contains (pyLower (pyStr w))

/-- The links produced for one source edge (combine.py lines 140-159),
starting from sequence number `seq`: one forward link `src → tgt` with id
`lp ++ toString seq`, plus — when the edge is not oneway — a reverse link
`tgt → src` with id `lp ++ toString (seq + 1)` and identical length,
freespeed, capacity, permlanes and modes. -/
def edgeLinks (hav : ℚ → ℚ → ℚ → ℚ → ℚ) (g : Graph) (np lp : String)
    (ds : ℚ) (modes : String) : String × String × Attrs → ℕ →
    Except String (List Link)
  | (u, v, edata), seq =>
    match nidLookup g np u with
    | .error e => .error e
    | .ok src =>
      match nidLookup g np v with
      | .error e => .error e
      | .ok tgt =>
        match resolveLength hav g u v edata with
        | .error e => .error e
        | .ok length =>
          match edgeSpeed edata ds with
          | .error e => .error e
          | .ok freespeed =>
            let l1 : Link :=
              ⟨lp ++ toString seq, src, tgt, length, freespeed,
               DEFAULT_CAPACITY, DEFAULT_LANES, modes⟩
            if onewayBool edata then .ok [l1]
            else .ok [l1, ⟨lp ++ toString (seq + 1), tgt, src, length,
              freespeed, DEFAULT_CAPACITY, DEFAULT_LANES, modes⟩]

/-- The edge loop of `graph_to_matsim` (combine.py lines 139-159): emit
each edge's links in order, advancing the sequence counter by the number
of links emitted. -/
def processEdges (hav : ℚ → ℚ → ℚ → ℚ → ℚ) (g : Graph) (np lp : String)
    (ds : ℚ) (modes : String) :
    List (String × String × Attrs) → Network → ℕ → Except String Network
  | [], net, _ => .ok net
  | e :: rest, net, seq =>
    match edgeLinks hav g np lp ds modes e seq with
    | .error err => .error err
    | .ok ls =>
        processEdges hav g np lp ds modes rest
          { net with links := net.links ++ ls } (seq + ls.length)

/-- Model of `graph_to_matsim` (combine.py lines 110-159): append the graph's
nodes, then its links, to the accumulating network. -/
def graph_to_matsim (proj : ℚ → ℚ → ℚ × ℚ) (hav : ℚ → ℚ → ℚ → ℚ → ℚ)
    (g : Graph) (net : Network) (np lp : String) (ds : ℚ) (modes : String) :
    Except String Network :=
  match processNodes proj np g.nodes net with
  | .error e => .error e
  | .ok net1 => processEdges hav g np lp ds modes g.edges net1 0

-- ----------------------------------------------------------------------
-- serialization (combine.py lines 181-205) and entry point (219-229)
-- ----------------------------------------------------------------------

/-- The two files written by `write_outputs`: path and payload of the
plain XML file, path and payload of the gzipped file.  An error result of
the surrounding pipeline means neither file is written. -/
structure Outputs where
  xmlPath : String
  xmlBytes : String
  gzPath : String
  gzBytes : String
deriving DecidableEq

/-- The XML declaration prepended at combine.py line 198. -/
def xmlDecl : String := "<?xml version=\"1.0\" encoding=\"utf-8\"?>\n"

/-- Model of `write_outputs` (combine.py lines 181-205).  `serialize` models
`ET.indent` + `ET.tostring` (the external element-tree renderer);
`compress` models gzip.  The path arithmetic mirrors lines 183-188
(`Path.suffix == ".gz"` coincides with `endsWith ".gz"` on every name
with a nonempty stem).  One payload `xml_bytes` is built (line 198) and
both files are written from it (lines 200 and 203-204). -/
def write_outputs (serialize : Network → String) (compress : String → String)
    (root : Network) (target : String) : Outputs :=
  let xmlPath := if target.endsWith ".gz" then target.dropRight 3 else target
  let gzPath := if target.endsWith ".gz" then target else target ++ ".gz"
  let xml_bytes := xmlDecl ++ MATSim_DOCTYPE ++ serialize root
  ⟨xmlPath, xml_bytes, gzPath, compress xml_bytes⟩

/-- The merge phase of `main` (combine.py lines 225-227): drive graph
with prefixes `v_`/`car_` and the car default speed, then walk graph with
prefixes `p_`/`walk_` and the walk default speed, into one network. -/
def mainMerge (proj : ℚ → ℚ → ℚ × ℚ) (hav : ℚ → ℚ → ℚ → ℚ → ℚ)
    (dg wg : Graph) : Except String Network :=
  match graph_to_matsim proj hav dg build_network_root "v_" "car_"
      CAR_DEFAULT_SPEED "car" with
  | .error e => .error e
  | .ok root1 =>
      graph_to_matsim proj hav wg root1 "p_" "walk_" WALK_DEFAULT_SPEED "walk"

/-- Model of `main` (combine.py lines 219-229): the serializer runs only on the
result of a fully successful merge; an error aborts the run with the
message and no `Outputs` (no file) is produced. -/
def mainRun (proj : ℚ → ℚ → ℚ × ℚ) (hav : ℚ → ℚ → ℚ → ℚ → ℚ)
    (serialize : Network → String) (compress : String → String)
    (dg wg : Graph) (target : String) : Except String Outputs :=
  match mainMerge proj hav dg wg with
  | .error e => .error e
  | .ok net => .ok (write_outputs serialize compress net target)

-- ----------------------------------------------------------------------
-- witness fixtures: concrete stand-ins for the injected collaborators
-- ----------------------------------------------------------------------

/-- A concrete projection for witnesses (the identity on coordinates). -/
def projId : ℚ → ℚ → ℚ × ℚ := fun lon lat => (lon, lat)

/-- A concrete haversine stand-in for witnesses. -/
def hav886 : ℚ → ℚ → ℚ → ℚ → ℚ := fun _ _ _ _ => 886

/-- A two-node drive-style graph with `x`/`y` coordinates and one edge
`A → B` carrying the given edge attributes. -/
def gAB (edata : Attrs) : Graph :=
  ⟨[("A", [("x", .num 127), ("y", .num 37)]),
    ("B", [("x", .num 128), ("y", .num 37)])],
   [("A", "B", edata)]⟩

example : Attrs.get [("x", .num 127)] "x" = some (.num 127) := by decide

example : graph_to_matsim projId hav886 (gAB []) build_network_root
    "v_" "car_" CAR_DEFAULT_SPEED "car" =
    .ok ⟨[⟨"v_A", 127, 37⟩, ⟨"v_B", 128, 37⟩],
         [⟨"car_0", "v_A", "v_B", 886, 15, 1000, 1, "car"⟩]⟩ := rfl

-- ----------------------------------------------------------------------
-- helper lemmas
-- ----------------------------------------------------------------------

/-- The link identifiers an invocation hands out from sequence number
`seq` onwards: `lp ++ toString seq`, `lp ++ toString (seq+1)`, …. -/
def seqIds (lp : String) (seq n : ℕ) : List String :=
  (List.range n).map (fun i => lp ++ toString (seq + i))

lemma seqIds_append (lp : String) (seq a b : ℕ) :
    seqIds lp seq (a + b) = seqIds lp seq a ++ seqIds lp (seq + a) b := by
  unfold seqIds
  rw [List.range_add, List.map_append, List.map_map]
  simp [Function.comp, Nat.add_assoc]

/-- Successful per-edge link production yields either one forward link or
a forward/reverse pair with consecutive sequence ids and all other
attributes identical. -/
lemma edgeLinks_shape {hav : ℚ → ℚ → ℚ → ℚ → ℚ} {g : Graph}
    {np lp : String} {ds : ℚ} {modes : String} {u v : String}
    {edata : Attrs} {seq : ℕ} {L : List Link}
    (h : edgeLinks hav g np lp ds modes (u, v, edata) seq = .ok L) :
    ∃ src tgt len sp,
      nidLookup g np u = .ok src ∧ nidLookup g np v = .ok tgt ∧
      resolveLength hav g u v edata = .ok len ∧
      edgeSpeed edata ds = .ok sp ∧
      ((onewayBool edata = true ∧
        L = [⟨lp ++ toString seq, src, tgt, len, sp,
              DEFAULT_CAPACITY, DEFAULT_LANES, modes⟩]) ∨
       (onewayBool edata = false ∧
        L = [⟨lp ++ toString seq, src, tgt, len, sp,
              DEFAULT_CAPACITY, DEFAULT_LANES, modes⟩,
             ⟨lp ++ toString (seq + 1), tgt, src, len, sp,
              DEFAULT_CAPACITY, DEFAULT_LANES, modes⟩])) := by
  simp only [edgeLinks] at h
  cases h1 : nidLookup g np u with
  | error e => rw [h1] at h; simp at h
  | ok src =>
    rw [h1] at h
    cases h2 : nidLookup g np v with
    | error e => rw [h2] at h; simp at h
    | ok tgt =>
      rw [h2] at h
      cases h3 : resolveLength hav g u v edata with
      | error e => rw [h3] at h; simp at h
      | ok len =>
        rw [h3] at h
        cases h4 : edgeSpeed edata ds with
        | error e => rw [h4] at h; simp at h
        | ok sp =>
          rw [h4] at h
          dsimp only at h
          refine ⟨src, tgt, len, sp, rfl, rfl, rfl, rfl, ?_⟩
          by_cases h5 : onewayBool edata = true
          · rw [if_pos h5] at h
            exact Or.inl ⟨h5, by injection h with h; exact h.symm⟩
          · rw [if_neg h5] at h
            exact Or.inr ⟨Bool.not_eq_true _ ▸ h5,
              by injection h with h; exact h.symm⟩

/-- The identifiers of the links produced for one edge are exactly the
next `L.length` sequence ids. -/
lemma edgeLinks_ids {hav : ℚ → ℚ → ℚ → ℚ → ℚ} {g : Graph}
    {np lp : String} {ds : ℚ} {modes : String} {u v : String}
    {edata : Attrs} {seq : ℕ} {L : List Link}
    (h : edgeLinks hav g np lp ds modes (u, v, edata) seq = .ok L) :
    L.map Link.id = seqIds lp seq L.length := by
  obtain ⟨src, tgt, len, sp, -, -, -, -, hc⟩ := edgeLinks_shape h
  rcases hc with ⟨-, hL⟩ | ⟨-, hL⟩ <;> subst hL <;>
    simp [seqIds, List.range_succ]

/-- The edge loop leaves the node list untouched and appends links whose
identifiers continue the sequence from `seq`. -/
lemma processEdges_ok {hav : ℚ → ℚ → ℚ → ℚ → ℚ} {g : Graph}
    {np lp : String} {ds : ℚ} {modes : String}
    (es : List (String × String × Attrs)) :
    ∀ (net : Network) (seq : ℕ) (net' : Network),
      processEdges hav g np lp ds modes es net seq = .ok net' →
      net'.nodes = net.nodes ∧
      ∃ L, net'.links = net.links ++ L ∧
        L.map Link.id = seqIds lp seq L.length := by
  induction es with
  | nil =>
      intro net seq net' h
      cases h
      exact ⟨rfl, [], by simp, by simp [seqIds]⟩
  | cons e rest ih =>
      intro net seq net' h
      obtain ⟨u, v, edata⟩ := e
      simp only [processEdges] at h
      cases he : edgeLinks hav g np lp ds modes (u, v, edata) seq with
      | error err => rw [he] at h; simp at h
      | ok ls =>
          rw [he] at h
          obtain ⟨hn, L', hl, hid⟩ := ih _ _ _ h
          refine ⟨by simpa using hn, ls ++ L', ?_, ?_⟩
          · rw [hl]; simp
          · rw [List.map_append, edgeLinks_ids he, hid,
              List.length_append, seqIds_append]

lemma addNodeIfNew_links (net : Network) (pid : String) (xy : ℚ × ℚ) :
    (addNodeIfNew net pid xy).links = net.links := by
  unfold addNodeIfNew; split <;> rfl

/-- The duplicate-id guard preserves distinctness of node identifiers. -/
lemma addNodeIfNew_nodup {net : Network} {pid : String} {xy : ℚ × ℚ}
    (h : (net.nodes.map MNode.id).Nodup) :
    ((addNodeIfNew net pid xy).nodes.map MNode.id).Nodup := by
  unfold addNodeIfNew
  split
  · next hall =>
      have hpid : pid ∉ net.nodes.map MNode.id := by
        intro hmem
        obtain ⟨n, hn, hid⟩ := List.mem_map.1 hmem
        have := List.all_eq_true.1 hall n hn
        simp only [bne_iff_ne, ne_eq] at this
        exact this hid
      simp [List.nodup_append, h, hpid]
  · exact h

/-- The node loop leaves the link list untouched and preserves
distinctness of node identifiers. -/
lemma processNodes_ok {proj : ℚ → ℚ → ℚ × ℚ} {np : String}
    (ns : List (String × Attrs)) :
    ∀ (net net' : Network), processNodes proj np ns net = .ok net' →
      net'.links = net.links ∧
      ((net.nodes.map MNode.id).Nodup → (net'.nodes.map MNode.id).Nodup) := by
  induction ns with
  | nil => intro net net' h; cases h; exact ⟨rfl, id⟩
  | cons hd rest ih =>
      intro net net' h
      obtain ⟨nid, attrs⟩ := hd
      simp only [processNodes] at h
      cases h1 : lonChain attrs with
      | none => rw [h1] at h; simp at h
      | some lonV =>
        rw [h1] at h
        cases h2 : latChain attrs with
        | none => rw [h2] at h; simp at h
        | some latV =>
          rw [h2] at h
          dsimp only at h
          cases h3 : pyFloat lonV with
          | error e => rw [h3] at h; simp at h
          | ok lon =>
            rw [h3] at h
            cases h4 : pyFloat latV with
            | error e => rw [h4] at h; simp at h
            | ok lat =>
              rw [h4] at h
              dsimp only at h
              obtain ⟨hl, hn⟩ := ih _ _ h
              refine ⟨by rw [hl, addNodeIfNew_links], ?_⟩
              intro hnd
              exact hn (addNodeIfNew_nodup hnd)

/-- A node whose longitude chain or latitude chain comes out `None` stops
the node loop with the message of combine.py line 129, naming the node. -/
lemma processNodes_missing {proj : ℚ → ℚ → ℚ × ℚ} {np : String}
    {nid : String} {attrs : Attrs}
    (rest : List (String × Attrs)) (net : Network)
    (h : lonChain attrs = none ∨ latChain attrs = none) :
    processNodes proj np ((nid, attrs) :: rest) net =
      .error ("Node " ++ nid ++ " missing coordinate attributes in GraphML") := by
  rcases h with h | h
  · cases h2 : latChain attrs <;> simp [processNodes, h, h2]
  · cases h1 : lonChain attrs <;> simp [processNodes, h1, h]

/-- If any node of the list has an empty coordinate chain, the node loop
fails, whatever the accumulated network. -/
lemma processNodes_aborts {proj : ℚ → ℚ → ℚ × ℚ} {np : String}
    {nid : String} {attrs : Attrs}
    (hchain : lonChain attrs = none ∨ latChain attrs = none) :
    ∀ (ns : List (String × Attrs)) (net : Network), (nid, attrs) ∈ ns →
      ∃ msg, processNodes proj np ns net = .error msg := by
  intro ns
  induction ns with
  | nil => intro net hmem; simp at hmem
  | cons hd rest ih =>
      intro net hmem
      obtain ⟨hnid, hattrs⟩ := hd
      rcases List.mem_cons.1 hmem with heq | hmem'
      · obtain ⟨rfl, rfl⟩ := Prod.mk.injEq .. ▸ heq
        exact ⟨_, processNodes_missing rest net hchain⟩
      · cases h1 : lonChain hattrs with
        | none => exact ⟨_, processNodes_missing rest net (Or.inl h1)⟩
        | some lonV =>
          cases h2 : latChain hattrs with
          | none => exact ⟨_, processNodes_missing rest net (Or.inr h2)⟩
          | some latV =>
            cases h3 : pyFloat lonV with
            | error e =>
                exact ⟨e, by simp [processNodes, h1, h2, h3]⟩
            | ok lon =>
              cases h4 : pyFloat latV with
              | error e =>
                  exact ⟨e, by simp [processNodes, h1, h2, h3, h4]⟩
              | ok lat =>
                obtain ⟨msg, hmsg⟩ :=
                  ih (addNodeIfNew net (np ++ hnid) (proj lon lat)) hmem'
                exact ⟨msg, by simp [processNodes, h1, h2, h3, h4, hmsg]⟩

/-- Distinct identifiers bound the number of node elements sharing any
given identifier by one. -/
lemma countP_le_one_of_nodup (s : String) :
    ∀ (l : List MNode), (l.map MNode.id).Nodup →
      l.countP (fun n => n.id == s) ≤ 1 := by
  intro l
  induction l with
  | nil => intro; simp
  | cons hd tl ih =>
      intro h
      simp only [List.map_cons, List.nodup_cons] at h
      obtain ⟨hnot, htl⟩ := h
      rw [List.countP_cons]
      by_cases hs : hd.id = s
      · have h0 : tl.countP (fun n => n.id == s) = 0 := by
          apply List.countP_eq_zero.2
          intro n hn hps
          simp only [beq_iff_eq] at hps
          exact hnot (List.mem_map.2 ⟨n, hn, by rw [hps, hs]⟩)
        simp [h0, hs]
      · simp only [beq_iff_eq, hs, if_false, Nat.add_zero]
        exact ih htl

/-- A successful invocation of `graph_to_matsim` preserves node-id
distinctness and appends links whose ids are the namespace's sequence
starting at 0. -/
lemma graph_to_matsim_ok {proj : ℚ → ℚ → ℚ × ℚ} {hav : ℚ → ℚ → ℚ → ℚ → ℚ}
    {g : Graph} {net : Network} {np lp : String} {ds : ℚ} {modes : String}
    {net' : Network}
    (h : graph_to_matsim proj hav g net np lp ds modes = .ok net') :
    ((net.nodes.map MNode.id).Nodup → (net'.nodes.map MNode.id).Nodup) ∧
    ∃ L, net'.links = net.links ++ L ∧ L.map Link.id = seqIds lp 0 L.length := by
  unfold graph_to_matsim at h
  cases h1 : processNodes proj np g.nodes net with
  | error e => rw [h1] at h; simp at h
  | ok net1 =>
      rw [h1] at h
      obtain ⟨hl1, hnd1⟩ := processNodes_ok g.nodes net net1 h1
      obtain ⟨hn2, L, hl2, hid⟩ := processEdges_ok g.edges net1 0 net' h
      refine ⟨fun hnd => ?_, L, ?_, hid⟩
      · rw [hn2]; exact hnd1 hnd
      · rw [hl2, hl1]

/-- A successful merge has distinct node ids and its link list is the
drive sequence (prefix `car_`, from 0) followed by the walk sequence
(prefix `walk_`, restarting from 0). -/
lemma mainMerge_ok {proj : ℚ → ℚ → ℚ × ℚ} {hav : ℚ → ℚ → ℚ → ℚ → ℚ}
    {dg wg : Graph} {net' : Network}
    (h : mainMerge proj hav dg wg = .ok net') :
    (net'.nodes.map MNode.id).Nodup ∧
    ∃ L1 L2, net'.links = L1 ++ L2 ∧
      L1.map Link.id = seqIds "car_" 0 L1.length ∧
      L2.map Link.id = seqIds "walk_" 0 L2.length := by
  unfold mainMerge at h
  cases h1 : graph_to_matsim proj hav dg build_network_root "v_" "car_"
      CAR_DEFAULT_SPEED "car" with
  | error e => rw [h1] at h; simp at h
  | ok root1 =>
      rw [h1] at h
      obtain ⟨hnd1, L1, hl1, hid1⟩ := graph_to_matsim_ok h1
      obtain ⟨hnd2, L2, hl2, hid2⟩ := graph_to_matsim_ok h
      refine ⟨hnd2 (hnd1 (by simp [build_network_root])), L1, L2, ?_, hid1, hid2⟩
      rw [hl2, hl1]
      simp [build_network_root]

-- ----------------------------------------------------------------------
-- claim theorems
-- ----------------------------------------------------------------------

/-- C1: for a source edge whose oneway attribute is absent, the builder
produces exactly one directed link src → tgt; for an edge whose oneway
attribute is present and evaluates to false (e.g. `"false"` or `"0"`), it
produces exactly two links, the second with from and to swapped and with
length, freespeed, modes, capacity and permlanes identical to the
first. -/
theorem oneway_expansion_policy
    (hav : ℚ → ℚ → ℚ → ℚ → ℚ) (g : Graph) (np lp : String) (ds : ℚ)
    (modes : String) (u v : String) (edata : Attrs) (seq : ℕ)
    (src tgt : String) (len sp : ℚ)
    (hsrc : nidLookup g np u = .ok src) (htgt : nidLookup g np v = .ok tgt)
    (hlen : resolveLength hav g u v edata = .ok len)
    (hsp : edgeSpeed edata ds = .ok sp) :
    (edata.get "oneway" = none →
      edgeLinks hav g np lp ds modes (u, v, edata) seq =
        .ok [⟨lp ++ toString seq, src, tgt, len, sp,
              DEFAULT_CAPACITY, DEFAULT_LANES, modes⟩]) ∧
    (∀ w : PyVal, edata.get "oneway" = some w →
      (pyLower (pyStr w) = "false" ∨ pyLower (pyStr w) = "0") →
      edgeLinks hav g np lp ds modes (u, v, edata) seq =
        .ok [⟨lp ++ toString seq, src, tgt, len, sp,
              DEFAULT_CAPACITY, DEFAULT_LANES, modes⟩,
             ⟨lp ++ toString (seq + 1), tgt, src, len, sp,
              DEFAULT_CAPACITY, DEFAULT_LANES, modes⟩]) := by
  constructor
  · intro hone
    have hob : onewayBool edata = true := by simp [onewayBool, hone]
    simp [edgeLinks, hsrc, htgt, hlen, hsp, hob]
  · intro w hw hlow
    have hob : onewayBool edata = false := by
      simp only [onewayBool, hw]
      rcases hlow with h | h <;> rw [h] <;> decide
    simp [edgeLinks, hsrc, htgt, hlen, hsp, hob]

/-- Witness for C1: the spec's end-to-end scenarios — edge `A → B` with
no attributes yields the single link `car_0`; the same edge with
`oneway="false"` yields `car_0` and the swapped `car_1` with identical
remaining attributes. -/
theorem oneway_expansion_policy_witness :
    edgeLinks hav886 (gAB []) "v_" "car_" 15 "car" ("A", "B", []) 0 =
      .ok [⟨"car_0", "v_A", "v_B", 886, 15, 1000, 1, "car"⟩] ∧
    edgeLinks hav886 (gAB [("oneway", .str "false")]) "v_" "car_" 15 "car"
        ("A", "B", [("oneway", .str "false")]) 0 =
      .ok [⟨"car_0", "v_A", "v_B", 886, 15, 1000, 1, "car"⟩,
           ⟨"car_1", "v_B", "v_A", 886, 15, 1000, 1, "car"⟩] :=
  ⟨(oneway_expansion_policy hav886 (gAB []) "v_" "car_" 15 "car" "A" "B"
      [] 0 "v_A" "v_B" 886 15 rfl rfl rfl rfl).1 rfl,
   (oneway_expansion_policy hav886 (gAB [("oneway", .str "false")]) "v_"
      "car_" 15 "car" "A" "B" [("oneway", .str "false")] 0 "v_A" "v_B"
      886 15 rfl rfl rfl rfl).2 _ rfl (Or.inl rfl)⟩

/-- C2: a source edge whose oneway attribute is present with any value
whose lower-cased string form is not `"true"`, `"1"` or `"yes"` is
treated exactly as the policy treats the listed non-truthy values: the
edge expands bidirectionally, producing exactly two links. -/
theorem oneway_nontruthy_bidirectional
    (hav : ℚ → ℚ → ℚ → ℚ → ℚ) (g : Graph) (np lp : String) (ds : ℚ)
    (modes : String) (u v : String) (edata : Attrs) (seq : ℕ)
    (src tgt : String) (len sp : ℚ)
    (hsrc : nidLookup g np u = .ok src) (htgt : nidLookup g np v = .ok tgt)
    (hlen : resolveLength hav g u v edata = .ok len)
    (hsp : edgeSpeed edata ds = .ok sp)
    (w : PyVal) (hw : edata.get "oneway" = some w)
    (hnt : (["true", "1", "yes"].contains (pyLower (pyStr w))) = false) :
    edgeLinks hav g np lp ds modes (u, v, edata) seq =
      .ok [⟨lp ++ toString seq, src, tgt, len, sp,
            DEFAULT_CAPACITY, DEFAULT_LANES, modes⟩,
           ⟨lp ++ toString (seq + 1), tgt, src, len, sp,
            DEFAULT_CAPACITY, DEFAULT_LANES, modes⟩] := by
  have hob : onewayBool edata = false := by
    simp only [onewayBool, hw]
    exact hnt
  simp [edgeLinks, hsrc, htgt, hlen, hsp, hob]

/-- Witness for C2: the edge with `oneway="no"` — a present value outside
the truthy set — produces exactly two links. -/
theorem oneway_nontruthy_bidirectional_witness :
    edgeLinks hav886 (gAB [("oneway", .str "no")]) "v_" "car_" 15 "car"
        ("A", "B", [("oneway", .str "no")]) 0 =
      .ok [⟨"car_0", "v_A", "v_B", 886, 15, 1000, 1, "car"⟩,
           ⟨"car_1", "v_B", "v_A", 886, 15, 1000, 1, "car"⟩] :=
  oneway_nontruthy_bidirectional hav886 (gAB [("oneway", .str "no")]) "v_"
    "car_" 15 "car" "A" "B" [("oneway", .str "no")] 0 "v_A" "v_B" 886 15
    rfl rfl rfl rfl (.str "no") rfl rfl

/-- C5: an edge carrying an explicit `distance` (or, when `distance` is
absent or falsy, `length`) attribute with a nonzero numeric value L > 0
resolves to exactly L, whatever the endpoints' coordinates (`g`, `u`,
`v` are arbitrary and the haversine fallback is never consulted). -/
theorem explicit_length_verbatim
    (hav : ℚ → ℚ → ℚ → ℚ → ℚ) (g : Graph) (u v : String) (edata : Attrs) :
    (∀ d : ℚ, edata.get "distance" = some (.num d) → 0 < d →
      resolveLength hav g u v edata = .ok d) ∧
    ((edata.get "distance" = none ∨
        ∃ w, edata.get "distance" = some w ∧ w.truthy = false) →
      ∀ d : ℚ, edata.get "length" = some (.num d) → 0 < d →
        resolveLength hav g u v edata = .ok d) := by
  constructor
  · intro d hd hpos
    have htr : (PyVal.num d).truthy = true := by
      simp [PyVal.truthy]; exact ne_of_gt hpos
    have hattr : edgeLengthAttr edata = .ok d := by
      simp [edgeLengthAttr, pyOrOpt, hd, htr, pyFloat]
    simp [resolveLength, hattr, ne_of_gt hpos]
  · intro hdist d hd hpos
    have htr : (PyVal.num d).truthy = true := by
      simp [PyVal.truthy]; exact ne_of_gt hpos
    have hattr : edgeLengthAttr edata = .ok d := by
      rcases hdist with h | ⟨w, hw, hwf⟩
      · simp [edgeLengthAttr, pyOrOpt, h, hd, htr, pyFloat]
      · simp [edgeLengthAttr, pyOrOpt, hw, hwf, hd, htr, pyFloat]
    simp [resolveLength, hattr, ne_of_gt hpos]

/-- Witness for C5: `distance=100` resolves to 100 with the fallback
untouched; `distance=0, length=75` resolves to 75. -/
theorem explicit_length_verbatim_witness :
    resolveLength hav886 (gAB [("distance", .num 100)]) "A" "B"
      [("distance", .num 100)] = .ok 100 ∧
    resolveLength hav886 (gAB []) "A" "B"
      [("distance", .num 0), ("length", .num 75)] = .ok 75 :=
  ⟨(explicit_length_verbatim hav886 (gAB [("distance", .num 100)]) "A" "B"
      [("distance", .num 100)]).1 100 rfl (by norm_num),
   (explicit_length_verbatim hav886 (gAB []) "A" "B"
      [("distance", .num 0), ("length", .num 75)]).2
      (Or.inr ⟨.num 0, rfl, rfl⟩) 75 rfl (by norm_num)⟩

/-- C9: `write_outputs` derives both artifacts from the single payload
`xml_bytes`: the gzipped file's bytes are exactly `compress` of the plain
file's bytes, so for any compressor with a decompress-after-compress
round trip the decompressed gzip twin is byte-identical to the plain
file. -/
theorem gz_twin_roundtrip (serialize : Network → String)
    (compress decompress : String → String) (root : Network)
    (target : String) (hround : ∀ b, decompress (compress b) = b) :
    (write_outputs serialize compress root target).gzBytes =
      compress (write_outputs serialize compress root target).xmlBytes ∧
    decompress (write_outputs serialize compress root target).gzBytes =
      (write_outputs serialize compress root target).xmlBytes :=
  ⟨rfl, hround _⟩

/-- A trivial serializer stand-in for witnesses. -/
def serId : Network → String := fun _ => "net"

/-- Witness for C9: with the identity as compressor/decompressor pair the
round trip is immediate on a concrete call. -/
theorem gz_twin_roundtrip_witness :
    (write_outputs serId (fun s => s) build_network_root "network.xml").gzBytes =
      (write_outputs serId (fun s => s) build_network_root "network.xml").xmlBytes :=
  (gz_twin_roundtrip serId (fun s => s) (fun s => s) build_network_root
    "network.xml" (fun _ => rfl)).2

/-- C3 counterexample: a graph whose endpoints carry their coordinates
under the recognized `lon`/`lat` names (no `x`/`y`) and whose edge omits
distance/length.  The claim asserts the resolved length equals the
haversine distance; instead the fallback's raw `g.nodes[u]["x"]` access
(combine.py line 145) fails and the whole conversion aborts with a
`KeyError`, producing no link at all. -/
theorem length_fallback_lonlat_keyerror :
    graph_to_matsim projId hav886
      ⟨[("A", [("lon", .num 127), ("lat", .num 37)]),
        ("B", [("lon", .num 128), ("lat", .num 37)])],
       [("A", "B", [])]⟩
      build_network_root "v_" "car_" CAR_DEFAULT_SPEED "car" =
      .error ("KeyError: " ++ "x") := rfl

/-- C3 (amended): for an edge whose `distance` and `length` attributes
are omitted or zero, the resolved length is the haversine function
applied to the endpoints' coordinates read from the raw `x`/`y` node
attributes only (`hav` is the injected `haversine` of combine.py lines
51-58); when an endpoint lacks an `x` attribute — e.g. its coordinates
are given only under `lon`/`lat` or `lng`/`lat` — the fallback instead
fails with a `KeyError` and no length is resolved. -/
theorem length_fallback_haversine_xy
    (hav : ℚ → ℚ → ℚ → ℚ → ℚ) (g : Graph) (u v : String) (edata : Attrs)
    (hd : edata.get "distance" = none ∨ edata.get "distance" = some (.num 0))
    (hl : edata.get "length" = none ∨ edata.get "length" = some (.num 0)) :
    (∀ x1 y1 x2 y2 : ℚ,
      nodeAttrFloat g u "x" = .ok x1 → nodeAttrFloat g u "y" = .ok y1 →
      nodeAttrFloat g v "x" = .ok x2 → nodeAttrFloat g v "y" = .ok y2 →
      resolveLength hav g u v edata = .ok (hav x1 y1 x2 y2)) ∧
    (∀ nu : Attrs, g.nodes.find? (fun p => p.1 == u) = some (u, nu) →
      nu.get "x" = none →
      resolveLength hav g u v edata = .error ("KeyError: " ++ "x")) := by
  have hattr : edgeLengthAttr edata = .ok 0 := by
    rcases hd with hd | hd <;> rcases hl with hl | hl <;>
      simp [edgeLengthAttr, pyOrOpt, hd, hl, PyVal.truthy]
  constructor
  · intro x1 y1 x2 y2 h1 h2 h3 h4
    simp [resolveLength, hattr, h1, h2, h3, h4]
  · intro nu hfind hx
    have hko : nodeAttrFloat g u "x" = .error ("KeyError: " ++ "x") := by
      simp [nodeAttrFloat, hfind, hx]
    simp [resolveLength, hattr, hko]

/-- Witness for C3 (amended): both branches on concrete graphs — the
`x`/`y` graph resolves to the haversine value, the `lon`/`lat` graph
aborts with the `KeyError`. -/
theorem length_fallback_haversine_xy_witness :
    resolveLength hav886 (gAB []) "A" "B" [] = .ok (hav886 127 37 128 37) ∧
    resolveLength hav886
      ⟨[("A", [("lon", .num 127), ("lat", .num 37)])], []⟩ "A" "B" [] =
      .error ("KeyError: " ++ "x") :=
  ⟨(length_fallback_haversine_xy hav886 (gAB []) "A" "B" []
      (Or.inl rfl) (Or.inl rfl)).1 127 37 128 37 rfl rfl rfl rfl,
   (length_fallback_haversine_xy hav886
      ⟨[("A", [("lon", .num 127), ("lat", .num 37)])], []⟩ "A" "B" []
      (Or.inl rfl) (Or.inl rfl)).2
      [("lon", .num 127), ("lat", .num 37)] rfl rfl⟩

/-- C4 counterexample: a drive-graph edge carrying both
`walking_speed=2` and `maxspeed=20`.  The claim asserts a drive edge's
speed is decided by the posted-speed attribute, not a pedestrian
attribute; the conversion instead resolves freespeed to the
`walking_speed` value 2, not the `maxspeed` value 20, because the chain
of combine.py line 149 consults `walking_speed` first for both
graphs. -/
theorem drive_speed_prefers_walking_speed :
    graph_to_matsim projId hav886
      ⟨[("A", [("x", .num 127), ("y", .num 37)]),
        ("B", [("x", .num 128), ("y", .num 37)])],
       [("A", "B", [("walking_speed", .num 2), ("maxspeed", .num 20),
                    ("distance", .num 100)])]⟩
      build_network_root "v_" "car_" CAR_DEFAULT_SPEED "car" =
      .ok ⟨[⟨"v_A", 127, 37⟩, ⟨"v_B", 128, 37⟩],
           [⟨"car_0", "v_A", "v_B", 100, 2, 1000, 1, "car"⟩]⟩ ∧
    (2 : ℚ) ≠ 20 :=
  ⟨rfl, by norm_num⟩

/-- C4 (amended): speed resolution follows the fixed chain
`walking_speed`, then `maxspeed`, then the caller's per-mode default
(15.0 for the drive invocation, 1.4 for the walk invocation),
identically for both graphs: a truthy `walking_speed` wins even on a
drive edge, `maxspeed` is used only when `walking_speed` is absent or
falsy, and the default only when both are; every produced link's
freespeed is the chain's result. -/
theorem speed_resolution_chain (edata : Attrs) (ds : ℚ) :
    (∀ s : ℚ, edata.get "walking_speed" = some (.num s) → s ≠ 0 →
      edgeSpeed edata ds = .ok s) ∧
    ((edata.get "walking_speed" = none ∨
        ∃ w, edata.get "walking_speed" = some w ∧ w.truthy = false) →
      ∀ m : ℚ, edata.get "maxspeed" = some (.num m) → m ≠ 0 →
        edgeSpeed edata ds = .ok m) ∧
    ((edata.get "walking_speed" = none ∨
        ∃ w, edata.get "walking_speed" = some w ∧ w.truthy = false) →
      (edata.get "maxspeed" = none ∨
        ∃ w, edata.get "maxspeed" = some w ∧ w.truthy = false) →
      edgeSpeed edata ds = .ok ds) ∧
    (∀ (hav : ℚ → ℚ → ℚ → ℚ → ℚ) (g : Graph) (np lp modes u v : String)
      (seq : ℕ) (L : List Link),
      edgeLinks hav g np lp ds modes (u, v, edata) seq = .ok L →
      ∀ l ∈ L, edgeSpeed edata ds = .ok l.freespeed) := by
  refine ⟨?_, ?_, ?_, ?_⟩
  · intro s hws hs
    have htr : (PyVal.num s).truthy = true := by simp [PyVal.truthy, hs]
    simp [edgeSpeed, pyOrOpt, hws, htr, pyFloat]
  · intro hws m hms hm
    have htr : (PyVal.num m).truthy = true := by simp [PyVal.truthy, hm]
    rcases hws with h | ⟨w, hw, hwf⟩
    · simp [edgeSpeed, pyOrOpt, h, hms, htr, pyFloat]
    · simp [edgeSpeed, pyOrOpt, hw, hwf, hms, htr, pyFloat]
  · intro hws hms
    rcases hws with h | ⟨w, hw, hwf⟩ <;> rcases hms with h2 | ⟨w2, hw2, hwf2⟩
    · simp [edgeSpeed, pyOrOpt, h, h2]
    · simp [edgeSpeed, pyOrOpt, h, hw2, hwf2]
    · simp [edgeSpeed, pyOrOpt, hw, hwf, h2]
    · simp [edgeSpeed, pyOrOpt, hw, hwf, hw2, hwf2]
  · intro hav g np lp modes u v seq L hL l hl
    obtain ⟨src, tgt, len, sp, -, -, -, hsp, hc⟩ := edgeLinks_shape hL
    rcases hc with ⟨-, hLeq⟩ | ⟨-, hLeq⟩ <;> subst hLeq <;>
      simp only [List.mem_singleton, List.mem_cons, List.not_mem_nil,
        or_false] at hl
    · subst hl; exact hsp
    · rcases hl with hl | hl <;> subst hl <;> exact hsp

/-- Witness for C4 (amended): `walking_speed=1.0` resolves to 1.0 on a
walk edge; a drive edge with no speed attribute resolves to the 15.0
default; a drive edge with `walking_speed=2` and `maxspeed=20` resolves
to 2. -/
theorem speed_resolution_chain_witness :
    edgeSpeed [("walking_speed", .num 1)] WALK_DEFAULT_SPEED = .ok 1 ∧
    edgeSpeed [] CAR_DEFAULT_SPEED = .ok CAR_DEFAULT_SPEED ∧
    edgeSpeed [("walking_speed", .num 2), ("maxspeed", .num 20)]
      CAR_DEFAULT_SPEED = .ok 2 :=
  ⟨(speed_resolution_chain [("walking_speed", .num 1)] WALK_DEFAULT_SPEED).1
      1 rfl (by norm_num),
   (speed_resolution_chain [] CAR_DEFAULT_SPEED).2.2.1
      (Or.inl rfl) (Or.inl rfl),
   (speed_resolution_chain [("walking_speed", .num 2), ("maxspeed", .num 20)]
      CAR_DEFAULT_SPEED).1 2 rfl (by norm_num)⟩

/-- C6: after merging the drive graph (node namespace `v_`) and the walk
graph (namespace `p_`), every node identifier of the merged network is
distinct — even when the two source graphs reuse identical raw
identifiers — and no identifier is carried by more than one node
element.  The duplicate guard of combine.py lines 135-136 makes this
hold for arbitrary inputs. -/
theorem merged_node_ids_unique (proj : ℚ → ℚ → ℚ × ℚ)
    (hav : ℚ → ℚ → ℚ → ℚ → ℚ) (dg wg : Graph) (net' : Network)
    (h : mainMerge proj hav dg wg = .ok net') :
    (net'.nodes.map MNode.id).Nodup ∧
    ∀ s : String, net'.nodes.countP (fun n => n.id == s) ≤ 1 :=
  ⟨(mainMerge_ok h).1,
   fun s => countP_le_one_of_nodup s _ (mainMerge_ok h).1⟩

/-- Witness for C6: both source graphs contain a node literally named
`"1"`; the merged network's ids `v_1` and `p_1` are distinct. -/
theorem merged_node_ids_unique_witness :
    ((⟨[⟨"v_1", 127, 37⟩, ⟨"p_1", 126, 36⟩], []⟩ : Network).nodes.map
        MNode.id).Nodup ∧
    ∀ s : String,
      (⟨[⟨"v_1", 127, 37⟩, ⟨"p_1", 126, 36⟩], []⟩ : Network).nodes.countP
        (fun n => n.id == s) ≤ 1 :=
  merged_node_ids_unique projId hav886
    ⟨[("1", [("x", .num 127), ("y", .num 37)])], []⟩
    ⟨[("1", [("x", .num 126), ("y", .num 36)])], []⟩ _ rfl

/-- C7: a source node lacking a recognized coordinate attribute makes
the whole run abort with an error — when the loop reaches the node, the
message names it (combine.py line 129) — and no output is produced: the
serializer (`write_outputs`) runs only on the result of a fully
successful merge of both graphs. -/
theorem missing_coordinate_aborts (proj : ℚ → ℚ → ℚ × ℚ)
    (hav : ℚ → ℚ → ℚ → ℚ → ℚ) (serialize : Network → String)
    (compress : String → String) (dg wg : Graph) (target : String)
    (nid : String) (attrs : Attrs) :
    (((nid, attrs) ∈ dg.nodes ∨ (nid, attrs) ∈ wg.nodes) →
      (lonChain attrs = none ∨ latChain attrs = none) →
      ∃ msg, mainRun proj hav serialize compress dg wg target = .error msg) ∧
    (∀ (np : String) (rest : List (String × Attrs)) (net : Network),
      (lonChain attrs = none ∨ latChain attrs = none) →
      processNodes proj np ((nid, attrs) :: rest) net =
        .error ("Node " ++ nid ++ " missing coordinate attributes in GraphML")) ∧
    (∀ net, mainMerge proj hav dg wg = .ok net →
      mainRun proj hav serialize compress dg wg target =
        .ok (write_outputs serialize compress net target)) ∧
    (∀ e, mainMerge proj hav dg wg = .error e →
      mainRun proj hav serialize compress dg wg target = .error e) := by
  refine ⟨?_, ?_, ?_, ?_⟩
  · intro hmem hchain
    rcases hmem with hmem | hmem
    · obtain ⟨msg, hmsg⟩ :=
        @processNodes_aborts proj "v_" nid attrs hchain dg.nodes
          build_network_root hmem
      have hdrive : graph_to_matsim proj hav dg build_network_root "v_"
          "car_" CAR_DEFAULT_SPEED "car" = .error msg := by
        simp [graph_to_matsim, hmsg]
      exact ⟨msg, by simp [mainRun, mainMerge, hdrive]⟩
    · cases hdr : graph_to_matsim proj hav dg build_network_root "v_"
          "car_" CAR_DEFAULT_SPEED "car" with
      | error e => exact ⟨e, by simp [mainRun, mainMerge, hdr]⟩
      | ok root1 =>
          obtain ⟨msg, hmsg⟩ :=
            @processNodes_aborts proj "p_" nid attrs hchain wg.nodes
              root1 hmem
          have hwalk : graph_to_matsim proj hav wg root1 "p_" "walk_"
              WALK_DEFAULT_SPEED "walk" = .error msg := by
            simp [graph_to_matsim, hmsg]
          exact ⟨msg, by simp [mainRun, mainMerge, hdr, hwalk]⟩
  · intro np rest net hchain
    exact processNodes_missing rest net hchain
  · intro net h
    simp [mainRun, h]
  · intro e h
    simp [mainRun, h]

/-- Witness for C7: a drive graph whose node `N` has only a `y`
attribute aborts the run; a well-formed pair of graphs reaches the
serializer with the merged network. -/
theorem missing_coordinate_aborts_witness :
    (∃ msg, mainRun projId hav886 serId (fun s => s)
        ⟨[("N", [("y", .num 37)])], []⟩
        ⟨[("1", [("x", .num 126), ("y", .num 36)])], []⟩
        "net.xml" = .error msg) ∧
    mainRun projId hav886 serId (fun s => s)
        ⟨[("1", [("x", .num 127), ("y", .num 37)])], []⟩
        ⟨[("1", [("x", .num 126), ("y", .num 36)])], []⟩ "net.xml" =
      .ok (write_outputs serId (fun s => s)
        ⟨[⟨"v_1", 127, 37⟩, ⟨"p_1", 126, 36⟩], []⟩ "net.xml") :=
  ⟨(missing_coordinate_aborts projId hav886 serId (fun s => s)
      ⟨[("N", [("y", .num 37)])], []⟩
      ⟨[("1", [("x", .num 126), ("y", .num 36)])], []⟩
      "net.xml" "N" [("y", .num 37)]).1
      (Or.inl (List.mem_singleton.2 rfl)) (Or.inl rfl),
   (missing_coordinate_aborts projId hav886 serId (fun s => s)
      ⟨[("1", [("x", .num 127), ("y", .num 37)])], []⟩
      ⟨[("1", [("x", .num 126), ("y", .num 36)])], []⟩
      "net.xml" "1" [("x", .num 127), ("y", .num 37)]).2.2.1
      ⟨[⟨"v_1", 127, 37⟩, ⟨"p_1", 126, 36⟩], []⟩ rfl⟩

/-- C8: within one invocation, link identifiers are the invocation's
link-id namespace followed by a sequence number starting at 0 and
increasing by 1 per emitted link; a bidirectional edge consumes two
consecutive numbers with the forward link getting the lower one; and in
the merged run the drive links carry `car_0, car_1, …` followed by the
walk links restarting at `walk_0, walk_1, …`. -/
theorem link_id_sequencing :
    (∀ (proj : ℚ → ℚ → ℚ × ℚ) (hav : ℚ → ℚ → ℚ → ℚ → ℚ) (g : Graph)
      (net : Network) (np lp : String) (ds : ℚ) (modes : String)
      (net' : Network),
      graph_to_matsim proj hav g net np lp ds modes = .ok net' →
      ∃ L, net'.links = net.links ++ L ∧
        L.map Link.id = seqIds lp 0 L.length) ∧
    (∀ (hav : ℚ → ℚ → ℚ → ℚ → ℚ) (g : Graph) (np lp : String) (ds : ℚ)
      (modes u v : String) (edata : Attrs) (seq : ℕ) (l1 l2 : Link),
      edgeLinks hav g np lp ds modes (u, v, edata) seq = .ok [l1, l2] →
      l1.id = lp ++ toString seq ∧ l2.id = lp ++ toString (seq + 1) ∧
      l2.fromId = l1.toId ∧ l2.toId = l1.fromId) ∧
    (∀ (proj : ℚ → ℚ → ℚ × ℚ) (hav : ℚ → ℚ → ℚ → ℚ → ℚ) (dg wg : Graph)
      (net' : Network),
      mainMerge proj hav dg wg = .ok net' →
      ∃ L1 L2, net'.links = L1 ++ L2 ∧
        L1.map Link.id = seqIds "car_" 0 L1.length ∧
        L2.map Link.id = seqIds "walk_" 0 L2.length) := by
  refine ⟨?_, ?_, ?_⟩
  · intro proj hav g net np lp ds modes net' h
    exact (graph_to_matsim_ok h).2
  · intro hav g np lp ds modes u v edata seq l1 l2 h
    obtain ⟨src, tgt, len, sp, -, -, -, -, hc⟩ := edgeLinks_shape h
    rcases hc with ⟨-, hL⟩ | ⟨-, hL⟩
    · simp at hL
    · obtain ⟨h1, h2⟩ := List.cons.injEq .. ▸ hL
      obtain ⟨h2, -⟩ := List.cons.injEq .. ▸ h2
      subst h1; subst h2
      exact ⟨rfl, rfl, rfl, rfl⟩
  · intro proj hav dg wg net' h
    exact (mainMerge_ok h).2

/-- Witness for C8: a one-edge bidirectional drive graph followed by a
one-edge walk graph yields links `car_0`, `car_1`, then `walk_0`. -/
theorem link_id_sequencing_witness :
    ∃ L1 L2,
      (⟨[⟨"v_A", 127, 37⟩, ⟨"v_B", 128, 37⟩, ⟨"p_A", 127, 37⟩,
         ⟨"p_B", 128, 37⟩],
        [⟨"car_0", "v_A", "v_B", 886, 15, 1000, 1, "car"⟩,
         ⟨"car_1", "v_B", "v_A", 886, 15, 1000, 1, "car"⟩,
         ⟨"walk_0", "p_A", "p_B", 886, 1.4, 1000, 1, "walk"⟩]⟩ :
          Network).links = L1 ++ L2 ∧
      L1.map Link.id = seqIds "car_" 0 L1.length ∧
      L2.map Link.id = seqIds "walk_" 0 L2.length :=
  (link_id_sequencing).2.2 projId hav886
    (gAB [("oneway", .str "false")]) (gAB []) _ rfl

/-- C10 counterexample: a node whose only longitude alias is the falsy
`lng=0` (no `x`, no `lon`).  The claim asserts such a node — a present
but falsy coordinate with no truthy alias — is rejected with the
missing-coordinate error; instead the `or` chain of combine.py line 125
returns the final alias's falsy value itself, so the node is accepted
with longitude 0 and the conversion succeeds. -/
theorem falsy_final_alias_accepted :
    graph_to_matsim projId hav886
      ⟨[("N", [("lng", .num 0), ("lat", .num 37)])], []⟩
      build_network_root "v_" "car_" CAR_DEFAULT_SPEED "car" =
      .ok ⟨[⟨"v_N", 0, 37⟩], []⟩ := rfl

/-- C10 (amended): a present-but-falsy coordinate value under a
non-final alias falls through to the next recognized name, and the
missing-coordinate error is raised exactly when a coordinate chain ends
with no value at all — so a node at longitude 0 given only as `x` (or
`lon`, with `lng` absent) is rejected, while a falsy value under the
final alias (`lng`, or `lat` for latitude) is returned by the chain and
the node is accepted with coordinate 0. -/
theorem falsy_coordinate_fallthrough (proj : ℚ → ℚ → ℚ × ℚ)
    (np nid : String) (attrs : Attrs) (rest : List (String × Attrs))
    (net : Network) :
    (∀ w, attrs.get "x" = some w → w.truthy = false →
      lonChain attrs = pyOrOpt (attrs.get "lon") (attrs.get "lng")) ∧
    ((lonChain attrs = none ∨ latChain attrs = none) →
      processNodes proj np ((nid, attrs) :: rest) net =
        .error ("Node " ++ nid ++ " missing coordinate attributes in GraphML")) ∧
    (∀ q r : ℚ, lonChain attrs = some (.num q) →
      latChain attrs = some (.num r) →
      processNodes proj np ((nid, attrs) :: rest) net =
        processNodes proj np rest (addNodeIfNew net (np ++ nid) (proj q r))) := by
  refine ⟨?_, ?_, ?_⟩
  · intro w hw hwf
    simp [lonChain, pyOrOpt, hw, hwf]
  · intro hchain
    exact processNodes_missing rest net hchain
  · intro q r h1 h2
    simp [processNodes, h1, h2, pyFloat]

/-- Witness for C10 (amended): `x=0` with no other longitude alias is
rejected with the missing-coordinate error; `lng=0` (with `lat=37`) is
accepted and the node is materialized at longitude 0. -/
theorem falsy_coordinate_fallthrough_witness :
    processNodes projId "v_" [("N", [("x", PyVal.num 0), ("y", PyVal.num 37)])]
        build_network_root =
      .error ("Node " ++ "N" ++ " missing coordinate attributes in GraphML") ∧
    processNodes projId "v_" [("M", [("lng", PyVal.num 0), ("lat", PyVal.num 37)])]
        build_network_root =
      processNodes projId "v_" []
        (addNodeIfNew build_network_root ("v_" ++ "M") (projId 0 37)) :=
  ⟨(falsy_coordinate_fallthrough projId "v_" "N"
      [("x", PyVal.num 0), ("y", PyVal.num 37)] [] build_network_root).2.1
      (Or.inl rfl),
   (falsy_coordinate_fallthrough projId "v_" "M"
      [("lng", PyVal.num 0), ("lat", PyVal.num 37)] [] build_network_root).2.2
      0 37 rfl rfl⟩
